import Mathlib

/-!
Shallow embedding of the `spit` screenshot utility (src/main.rs).

The program is a thin dispatcher over three external facilities: screen
capture, the system clipboard, and PNG file writing.  We model the external
world as an `Env` record (platform flag, argv, clipboard contents, screen
enumeration, clock, and success flags of the fallible OS calls) and embed
each Rust function as a Lean function from `Env` to a result paired with a
trace of observable events.  Rust `?`-propagation becomes the `Res.err`
constructor; Rust panics (`expect`, out-of-bounds indexing) become
`Res.panicked`, which `main` does NOT convert into an `ERROR:` message and
exit code 1 — the process aborts instead.
-/

namespace Spit

/-- Truncating cast to u32, as performed by Rust's `as u32` on a usize. -/
def u32cast (n : Nat) : Nat := n % 4294967296

/-- The `arboard::ImageData` representation held by the system clipboard:
declared width and height (usize) and a byte buffer. -/
structure ImageData where
  width : Nat
  height : Nat
  bytes : List Nat
deriving DecidableEq

/-- The `image::RgbaImage` pixel-buffer representation. -/
structure RgbaImage where
  width : Nat
  height : Nat
  bytes : List Nat
deriving DecidableEq

/-- `image::RgbaImage::from_raw(width, height, buf)`: the image crate accepts
the buffer whenever `buf.len() ≥ width * height * 4` (`check_image_fits`),
keeping the whole buffer; it returns `None` only when the buffer is too
short. -/
def RgbaImage.from_raw (w h : Nat) (buf : List Nat) : Option RgbaImage :=
  if w * h * 4 ≤ buf.length then some ⟨w, h, buf⟩ else none

/-- A screen as returned by `screenshots::Screen::all()`; capturing it can
fail, in which case `captureResult` is `none`. -/
structure Screen where
  captureResult : Option RgbaImage
deriving DecidableEq

/-- Result of running an embedded Rust function: normal success, a
`?`-propagated error, or a panic (`expect` failure or out-of-bounds index). -/
inductive Res (α : Type) where
  | ok (val : α)
  | err (msg : String)
  | panicked (msg : String)
deriving DecidableEq

/-- Observable events of one process run, in order. -/
inductive Event where
  | clipboardNew
  | screenAll
  | screenCapture
  | clipGet
  | clipSet (blocking : Bool) (data : ImageData)
  | fileWrite (path : String) (png : Bool) (img : RgbaImage)
  | printOut (line : String)
  | spawnChild (exe : String) (argv : List String)
      (stdinNull stdoutNull stderrNull : Bool) (cwd : String)
deriving DecidableEq

/-- The external world one invocation runs against. -/
structure Env where
  /-- `cfg!(target_os = "linux")` -/
  isLinux : Bool
  /-- `env::args()`, program name at index 0 -/
  args : List String
  /-- whether `Clipboard::new()` succeeds -/
  clipboardNewOk : Bool
  /-- result of `env::current_exe()` -/
  currentExe : Option String
  /-- result of `Screen::all()`; `none` means the call itself errors -/
  screensResult : Option (List Screen)
  /-- result of `clipboard.get_image()`; `none` means it errors -/
  clipImage : Option ImageData
  /-- whether the clipboard set-image call succeeds -/
  setOk : Bool
  /-- `SystemTime::now().duration_since(UNIX_EPOCH)` in whole seconds -/
  timeResult : Option Nat
  /-- whether `save_with_format` succeeds -/
  saveOk : Bool
  /-- whether `Command::spawn` succeeds -/
  spawnOk : Bool
deriving DecidableEq

/-- `const SELF_IS_DAEMONIZED: &str = "__self_is_daemonized"` -/
def SELF_IS_DAEMONIZED : String := "__self_is_daemonized"

/-- The usage text with the current executable path interpolated. -/
def usageText (exe : String) : String :=
  "If no subcommand is provided, it will take a screenshot of the current screen and save it to the system clipboard.\nUsage:\n    "
    ++ exe ++
    " [SUBCOMMAND]\n\nSubcommands:\n    help - Show this message.\n    save - Try to save a screenshot from the clipboard as a PNG file."

/-- `usage()`: interpolates `env::current_exe().expect("name of the current
program")`, so it panics when the executable path cannot be determined. -/
def usage (env : Env) : Res String :=
  match env.currentExe with
  | some exe => .ok (usageText exe)
  | none => .panicked "name of the current program"

/-- `capture_screenshot()`: `Screen::all()?[0]` then `screen.capture()?`.
Indexing `[0]` on an empty, successfully returned screen list panics. -/
def capture_screenshot (env : Env) : Res RgbaImage × List Event :=
  match env.screensResult with
  | none => (.err "screens error", [.screenAll])
  | some [] => (.panicked "index out of bounds", [.screenAll])
  | some (s :: _) =>
    match s.captureResult with
    | none => (.err "capture error", [.screenAll, .screenCapture])
    | some img => (.ok img, [.screenAll, .screenCapture])

/-- `screenshot_into_clipboard()`: capture, build `ImageData`, then either
the blocking `clipboard.set().wait().image(..)` on Linux or the plain
`clipboard.set_image(..)` elsewhere. -/
def screenshot_into_clipboard (env : Env) : Res Unit × List Event :=
  match capture_screenshot env with
  | (.ok image, tr) =>
    let image_data : ImageData := ⟨image.width, image.height, image.bytes⟩
    if env.isLinux then
      if env.setOk then (.ok (), tr ++ [.clipSet true image_data])
      else (.err "clipboard set error", tr ++ [.clipSet true image_data])
    else
      if env.setOk then (.ok (), tr ++ [.clipSet false image_data])
      else (.err "clipboard set error", tr ++ [.clipSet false image_data])
  | (.err m, tr) => (.err m, tr)
  | (.panicked m, tr) => (.panicked m, tr)

/-- `get_image_from_clipboard()`: `clipboard.get_image()?`, then
`RgbaImage::from_raw(width as u32, height as u32, bytes)` followed by
`.expect("valid image size")`, which panics when `from_raw` returns `None`. -/
def get_image_from_clipboard (env : Env) : Res RgbaImage × List Event :=
  match env.clipImage with
  | none => (.err "clipboard get error", [.clipGet])
  | some d =>
    match RgbaImage.from_raw (u32cast d.width) (u32cast d.height) d.bytes with
    | some image => (.ok image, [.clipGet])
    | none => (.panicked "valid image size", [.clipGet])

/-- Fuel-bounded decimal formatter accumulating digits right to left; embeds
Rust's `{}` Display formatting of an unsigned integer. -/
def natDecimalAux : Nat → Nat → List Char → List Char
  | 0, _, acc => acc
  | fuel + 1, n, acc =>
    if n < 10 then Nat.digitChar n :: acc
    else natDecimalAux fuel (n / 10) (Nat.digitChar (n % 10) :: acc)

/-- Decimal digit string of `n`; fuel `n + 1` always suffices. -/
def natDecimal (n : Nat) : List Char := natDecimalAux (n + 1) n []

/-- `format!("{now}.png")`. -/
def fileName (secs : Nat) : String := String.mk (natDecimal secs) ++ ".png"

/-- `save_image_cwd_as_png()`: derive `<unix_seconds>.png`, save the image
as PNG, print the confirmation line to stdout. -/
def save_image_cwd_as_png (env : Env) (image : RgbaImage) :
    Res Unit × List Event :=
  match env.timeResult with
  | none => (.err "time error", [])
  | some now =>
    let file_path := fileName now
    if env.saveOk then
      (.ok (), [.fileWrite file_path true image,
        .printOut ("Image from clipboard is saved as \"" ++ file_path ++ "\"")])
    else (.err "save error", [.fileWrite file_path true image])

/-- `save_image_from_clipboard()`: clipboard read then file save, each
propagated with `?`. -/
def save_image_from_clipboard (env : Env) : Res Unit × List Event :=
  match get_image_from_clipboard env with
  | (.ok image, tr) =>
    match save_image_cwd_as_png env image with
    | (r, tr2) => (r, tr ++ tr2)
  | (.err m, tr) => (.err m, tr)
  | (.panicked m, tr) => (.panicked m, tr)

/-- `run()`: acquire the clipboard handle first, then dispatch on
`env::args().nth(1)`. -/
def run (env : Env) : Res Unit × List Event :=
  if env.clipboardNewOk then
    let tr0 : List Event := [.clipboardNew]
    match env.args[1]? with
    | some subcmd =>
      if subcmd = "help" then
        match usage env with
        | .ok u => (.ok (), tr0 ++ [.printOut u])
        | .err m => (.err m, tr0)
        | .panicked m => (.panicked m, tr0)
      else if subcmd = "save" then
        match save_image_from_clipboard env with
        | (r, tr) => (r, tr0 ++ tr)
      else if subcmd = SELF_IS_DAEMONIZED ∧ env.isLinux = true then
        match screenshot_into_clipboard env with
        | (r, tr) => (r, tr0 ++ tr)
      else
        match usage env with
        | .ok u =>
          (.err ("Unknown subcommand \"" ++ subcmd ++ "\"" ++ u), tr0)
        | .err m => (.err m, tr0)
        | .panicked m => (.panicked m, tr0)
    | none =>
      if env.isLinux then
        match env.currentExe with
        | none => (.err "current exe error", tr0)
        | some exe =>
          if env.spawnOk then
            (.ok (), tr0 ++
              [.spawnChild exe [SELF_IS_DAEMONIZED] true true true "/"])
          else (.err "spawn error", tr0)
      else
        match screenshot_into_clipboard env with
        | (r, tr) => (r, tr0 ++ tr)
  else (.err "clipboard new error", [.clipboardNew])

/-- Process exit: `ExitCode::SUCCESS`, `ExitCode::FAILURE` (after printing
`ERROR: <msg>` to stderr), or a panic abort (exit code 101, no `ERROR:`
line). -/
inductive ExitStatus where
  | success
  | failure
  | panicAbort (msg : String)
deriving DecidableEq

/-- One whole process run: exit status, stderr lines, event trace. -/
structure MainRun where
  exit : ExitStatus
  stderr : List String
  events : List Event
deriving DecidableEq

/-- `main()`: run, map `Err` to an `ERROR:` diagnostic line and failure
exit; a panic aborts without the `ERROR:` line. -/
def mainRun (env : Env) : MainRun :=
  match run env with
  | (.ok _, tr) => ⟨.success, [], tr⟩
  | (.err m, tr) => ⟨.failure, ["ERROR: " ++ m], tr⟩
  | (.panicked m, tr) => ⟨.panicAbort m, [], tr⟩

/-- Paths of files created during a run, read off the event trace. -/
def filesCreated (tr : List Event) : List String :=
  tr.filterMap fun e =>
    match e with
    | .fileWrite p _ _ => some p
    | _ => none

/-- Decimal digit character test (matches the regex class [0-9]). -/
def isDigitChar (c : Char) : Bool := 48 ≤ c.toNat && c.toNat ≤ 57

/-- Decides whether a string matches the pattern ^[0-9]+\.png$. -/
def matchesTimestampPng (s : String) : Bool :=
  let cs := s.data
  decide (4 < cs.length) &&
    decide (cs.drop (cs.length - 4) = [Char.ofNat 46, Char.ofNat 112,
      Char.ofNat 110, Char.ofNat 103]) &&
    (cs.take (cs.length - 4)).all isDigitChar

/-- Whether a run result is a `?`-propagated error (as opposed to success
or a panic abort). -/
def Res.isErr {α : Type} : Res α → Bool
  | .err _ => true
  | _ => false

/-- A 1×1 all-zero RGBA image used as concrete capture output. -/
def testImg : RgbaImage := ⟨1, 1, [0, 0, 0, 0]⟩

/-- A concrete environment: Linux, no subcommand, every external call
succeeds, one capturable screen, empty clipboard. -/
def baseEnv : Env :=
  { isLinux := true
    args := ["spit"]
    clipboardNewOk := true
    currentExe := some "spit"
    screensResult := some [⟨some testImg⟩]
    clipImage := none
    setOk := true
    timeResult := some 0
    saveOk := true
    spawnOk := true }

/-- Environment whose clipboard holds a 1×1 image with only 3 bytes
(fewer than width×height×4 = 4), read by the save subcommand. -/
def envShortClip : Env :=
  { baseEnv with args := ["spit", "save"], clipImage := some ⟨1, 1, [0, 0, 0]⟩ }

/-- Environment whose clipboard holds a 1×1 image with 5 bytes
(more than width×height×4 = 4), read by the save subcommand. -/
def envLongClip : Env :=
  { baseEnv with
    args := ["spit", "save"]
    clipImage := some ⟨1, 1, [1, 2, 3, 4, 5]⟩ }

/-- Environment invoking the help subcommand. -/
def envHelp : Env := { baseEnv with args := ["spit", "help"] }

/-- Environment where screen enumeration succeeds with an empty list. -/
def envNoScreens : Env := { baseEnv with screensResult := some [] }

/-- Environment invoking save with a valid 1×1 clipboard image. -/
def envSave : Env :=
  { baseEnv with args := ["spit", "save"], clipImage := some ⟨1, 1, [9, 9, 9, 9]⟩ }

/-- Environment invoking an unrecognized subcommand. -/
def envUnknown : Env := { baseEnv with args := ["spit", "bogus"] }

/-- Environment invoking the internal re-exec marker on Linux. -/
def envMarker : Env := { baseEnv with args := ["spit", SELF_IS_DAEMONIZED] }

/-- Environment invoking the internal re-exec marker off Linux. -/
def envMarkerNonLinux : Env :=
  { baseEnv with
    args := ["spit", SELF_IS_DAEMONIZED]
    isLinux := false }

/-- Environment with no subcommand off Linux. -/
def envNoArgNonLinux : Env := { baseEnv with isLinux := false }

/-!
Helper lemmas about the decimal formatter.
-/

/-- Each of the ten decimal digit characters passes `isDigitChar`. -/
theorem digitChar_isDigit (d : Nat) (h : d < 10) :
    isDigitChar (Nat.digitChar d) = true := by
  interval_cases d <;> decide

/-- The formatter only ever pushes digit characters onto the accumulator. -/
theorem natDecimalAux_all_digits (fuel : Nat) :
    ∀ (n : Nat) (acc : List Char), acc.all isDigitChar = true →
      (natDecimalAux fuel n acc).all isDigitChar = true := by
  induction fuel with
  | zero => intro n acc hacc; simpa [natDecimalAux] using hacc
  | succ f ih =>
    intro n acc hacc
    rw [natDecimalAux]
    by_cases h : n < 10
    · rw [if_pos h]
      simp [List.all_cons, hacc, digitChar_isDigit n h]
    · rw [if_neg h]
      exact ih _ _ (by
        simp [List.all_cons, hacc,
          digitChar_isDigit (n % 10) (Nat.mod_lt _ (by omega))])

/-- The decimal representation consists solely of digit characters. -/
theorem natDecimal_all_digits (n : Nat) :
    (natDecimal n).all isDigitChar = true :=
  natDecimalAux_all_digits _ _ _ rfl

/-- The formatter never returns an empty list from a nonempty accumulator. -/
theorem natDecimalAux_ne_nil (fuel : Nat) :
    ∀ (n : Nat) (acc : List Char), acc ≠ [] →
      natDecimalAux fuel n acc ≠ [] := by
  induction fuel with
  | zero => intro n acc hacc; simpa [natDecimalAux] using hacc
  | succ f ih =>
    intro n acc hacc
    rw [natDecimalAux]
    by_cases h : n < 10
    · rw [if_pos h]; exact List.cons_ne_nil _ _
    · rw [if_neg h]
      exact ih _ _ (List.cons_ne_nil _ _)

/-- The decimal representation of any number is nonempty. -/
theorem natDecimal_ne_nil (n : Nat) : natDecimal n ≠ [] := by
  rw [natDecimal, natDecimalAux]
  by_cases h : n < 10
  · rw [if_pos h]; exact List.cons_ne_nil _ _
  · rw [if_neg h]
    exact natDecimalAux_ne_nil _ _ _ (List.cons_ne_nil _ _)

/-- Every generated file name matches the pattern ^[0-9]+\.png$. -/
theorem matchesTimestampPng_fileName (t : Nat) :
    matchesTimestampPng (fileName t) = true := by
  have hall := natDecimal_all_digits t
  have hpos : 0 < (natDecimal t).length :=
    List.length_pos.mpr (natDecimal_ne_nil t)
  have hdata : (fileName t).data
      = natDecimal t ++ [Char.ofNat 46, Char.ofNat 112,
          Char.ofNat 110, Char.ofNat 103] := by
    rw [fileName, String.data_append]
  rw [matchesTimestampPng]
  simp only [hdata, List.length_append, List.length_cons, List.length_nil,
    Bool.and_eq_true, decide_eq_true_eq]
  have hsub : (natDecimal t).length + 4 - 4 = (natDecimal t).length := by omega
  refine ⟨⟨by omega, ?_⟩, ?_⟩
  · rw [hsub, List.drop_left]
  · rw [hsub, List.take_left]
    exact hall

/-!
Claim theorems.
-/

/-- Claim C1, counterexample: with a 1×1 clipboard image of 3 bytes the
save subcommand aborts via panic — no ERROR diagnostic line and no exit
code 1 — and with a 1×1 clipboard image of 5 bytes the read succeeds and
the image is saved, so a byte length inconsistent with width×height×4 is
not reported as a malformed-clipboard-data error result. -/
theorem clipboard_malformed_not_error_counterexample :
    mainRun envShortClip
      = ⟨.panicAbort "valid image size", [], [.clipboardNew, .clipGet]⟩
    ∧ mainRun envLongClip
      = ⟨.success, [],
          [.clipboardNew, .clipGet,
            .fileWrite (fileName 0) true ⟨1, 1, [1, 2, 3, 4, 5]⟩,
            .printOut ("Image from clipboard is saved as \"" ++ fileName 0 ++ "\"")]⟩ := by
  decide

/-- Claim C1, amended: when the clipboard read call itself succeeds,
`get_image_from_clipboard` never returns a normal error; a byte buffer
shorter than width×height×4 makes it panic via `expect` (process abort
rather than an exit-1 error result), and any buffer of length at least
width×height×4 is accepted as-is, so an overlong buffer passes without a
malformed-data error. -/
theorem get_image_malformed_behavior (env : Env) (d : ImageData)
    (hget : env.clipImage = some d) :
    (get_image_from_clipboard env).1.isErr = false
    ∧ (d.bytes.length < u32cast d.width * u32cast d.height * 4 →
        (get_image_from_clipboard env).1 = .panicked "valid image size")
    ∧ (u32cast d.width * u32cast d.height * 4 ≤ d.bytes.length →
        (get_image_from_clipboard env).1
          = .ok ⟨u32cast d.width, u32cast d.height, d.bytes⟩) := by
  rcases Nat.lt_or_ge d.bytes.length
    (u32cast d.width * u32cast d.height * 4) with h | h
  · have hn : ¬ u32cast d.width * u32cast d.height * 4 ≤ d.bytes.length := by
      omega
    have he : get_image_from_clipboard env
        = (.panicked "valid image size", [.clipGet]) := by
      rw [get_image_from_clipboard, hget]
      simp [RgbaImage.from_raw, hn]
    rw [he]
    exact ⟨rfl, fun _ => rfl, fun hc => absurd hc hn⟩
  · have he : get_image_from_clipboard env
        = (.ok ⟨u32cast d.width, u32cast d.height, d.bytes⟩, [.clipGet]) := by
      rw [get_image_from_clipboard, hget]
      simp [RgbaImage.from_raw, h]
    rw [he]
    exact ⟨rfl, fun hc => by omega, fun _ => rfl⟩

/-- Claim C1, witness: the amended theorem applied to the short-buffer
environment. -/
theorem get_image_malformed_behavior_witness :
    (get_image_from_clipboard envShortClip).1 = .panicked "valid image size" :=
  (get_image_malformed_behavior envShortClip ⟨1, 1, [0, 0, 0]⟩ rfl).2.1
    (by decide)

/-- Claim C2, counterexample: dispatching "help" does acquire a clipboard
handle — `Clipboard::new()` runs before the argument is inspected. -/
theorem help_acquires_clipboard_handle :
    Event.clipboardNew ∈ (mainRun envHelp).events := by decide

/-- Claim C2, amended: dispatching "help" prints the usage text to stdout
and exits successfully, performing no screen access and no clipboard read
or write; however, a clipboard handle is acquired before dispatch. -/
theorem help_dispatch (env : Env) (exe : String)
    (hargs : env.args[1]? = some "help")
    (hclip : env.clipboardNewOk = true)
    (hexe : env.currentExe = some exe) :
    mainRun env = ⟨.success, [], [.clipboardNew, .printOut (usageText exe)]⟩ := by
  simp [mainRun, run, usage, hargs, hclip, hexe]

/-- Claim C2, witness: the amended theorem at the concrete help
environment. -/
theorem help_dispatch_witness :
    mainRun envHelp
      = ⟨.success, [], [.clipboardNew, .printOut (usageText "spit")]⟩ :=
  help_dispatch envHelp "spit" rfl rfl rfl

/-- Claim C3: when screen enumeration succeeds with an empty list,
`capture_screenshot` panics (out-of-bounds index on `[0]`) instead of
returning a CaptureError through the normal error channel. -/
theorem empty_screen_list_panics :
    capture_screenshot envNoScreens
      = (.panicked "index out of bounds", [.screenAll]) := by decide

/-- Claim C4: with no subcommand, on Linux the program spawns exactly one
detached copy of itself with the re-exec marker as sole argument, null
standard streams and working directory "/", and the parent performs no
capture and no clipboard write; off Linux it captures and publishes
synchronously with no child spawned. -/
theorem noarg_dispatch (env : Env) (exe : String) (img : RgbaImage)
    (rest : List Screen)
    (hargs : env.args[1]? = none)
    (hclip : env.clipboardNewOk = true) :
    (env.isLinux = true → env.currentExe = some exe → env.spawnOk = true →
      mainRun env = ⟨.success, [],
        [.clipboardNew,
          .spawnChild exe [SELF_IS_DAEMONIZED] true true true "/"]⟩)
    ∧ (env.isLinux = false →
        env.screensResult = some (⟨some img⟩ :: rest) → env.setOk = true →
      mainRun env = ⟨.success, [],
        [.clipboardNew, .screenAll, .screenCapture,
          .clipSet false ⟨img.width, img.height, img.bytes⟩]⟩) := by
  constructor
  · intro hlin hexe hspawn
    simp [mainRun, run, hargs, hclip, hlin, hexe, hspawn]
  · intro hlin hscr hset
    simp [mainRun, run, screenshot_into_clipboard, capture_screenshot,
      hargs, hclip, hlin, hscr, hset]

/-- Claim C4, witness: the theorem at the concrete Linux no-argument
environment. -/
theorem noarg_dispatch_witness :
    mainRun baseEnv = ⟨.success, [],
      [.clipboardNew,
        .spawnChild "spit" [SELF_IS_DAEMONIZED] true true true "/"]⟩ :=
  (noarg_dispatch baseEnv "spit" testImg [] rfl rfl).1 rfl rfl rfl

/-- Claim C5: any token other than "help", "save", and (on Linux) the
re-exec marker makes the program exit with failure, printing to the
diagnostic stream the message `ERROR: Unknown subcommand "<token>"`
with the token embedded verbatim and followed by the full usage text. -/
theorem unknown_subcommand_dispatch (env : Env) (tok exe : String)
    (hargs : env.args[1]? = some tok)
    (hclip : env.clipboardNewOk = true)
    (hexe : env.currentExe = some exe)
    (hhelp : tok ≠ "help")
    (hsave : tok ≠ "save")
    (hmark : tok = SELF_IS_DAEMONIZED → env.isLinux = false) :
    mainRun env = ⟨.failure,
      ["ERROR: " ++ ("Unknown subcommand \"" ++ tok ++ "\"" ++ usageText exe)],
      [.clipboardNew]⟩ := by
  have hcond : ¬ (tok = SELF_IS_DAEMONIZED ∧ env.isLinux = true) := by
    rintro ⟨h1, h2⟩
    rw [hmark h1] at h2
    exact Bool.false_ne_true h2
  simp [mainRun, run, usage, hargs, hclip, hexe, hhelp, hsave, hcond]

/-- Claim C5, witness: the theorem at the token "bogus". -/
theorem unknown_subcommand_dispatch_witness :
    mainRun envUnknown = ⟨.failure,
      ["ERROR: " ++
        ("Unknown subcommand \"" ++ "bogus" ++ "\"" ++ usageText "spit")],
      [.clipboardNew]⟩ :=
  unknown_subcommand_dispatch envUnknown "bogus" "spit" rfl rfl rfl
    (by decide) (by decide) (fun h => absurd h (by decide))

/-- Claim C6: the internal re-exec marker runs capture and publish
synchronously on Linux, and on any other platform the very same token is
rejected as an unknown subcommand. -/
theorem daemonized_marker_dispatch (env : Env) (exe : String)
    (img : RgbaImage) (rest : List Screen)
    (hargs : env.args[1]? = some SELF_IS_DAEMONIZED)
    (hclip : env.clipboardNewOk = true) :
    (env.isLinux = true →
        env.screensResult = some (⟨some img⟩ :: rest) → env.setOk = true →
      mainRun env = ⟨.success, [],
        [.clipboardNew, .screenAll, .screenCapture,
          .clipSet true ⟨img.width, img.height, img.bytes⟩]⟩)
    ∧ (env.isLinux = false → env.currentExe = some exe →
      mainRun env = ⟨.failure,
        ["ERROR: " ++ ("Unknown subcommand \"" ++ SELF_IS_DAEMONIZED ++ "\""
          ++ usageText exe)],
        [.clipboardNew]⟩) := by
  constructor
  · intro hlin hscr hset
    simp [mainRun, run, screenshot_into_clipboard, capture_screenshot,
      SELF_IS_DAEMONIZED, hargs, hclip, hlin, hscr, hset]
  · intro hlin hexe
    simp [mainRun, run, usage, SELF_IS_DAEMONIZED, hargs, hclip, hlin, hexe]

/-- Claim C6, witness: the theorem at the concrete Linux marker
environment. -/
theorem daemonized_marker_dispatch_witness :
    mainRun envMarker = ⟨.success, [],
      [.clipboardNew, .screenAll, .screenCapture,
        .clipSet true ⟨1, 1, [0, 0, 0, 0]⟩]⟩ :=
  (daemonized_marker_dispatch envMarker "spit" testImg [] rfl rfl).1
    rfl rfl rfl

/-- Claim C7: the save subcommand with a failing clipboard read exits with
failure, prints an ERROR diagnostic, and creates no file. -/
theorem save_empty_clipboard_no_file (env : Env)
    (hargs : env.args[1]? = some "save")
    (hclip : env.clipboardNewOk = true)
    (hget : env.clipImage = none) :
    mainRun env
      = ⟨.failure, ["ERROR: clipboard get error"], [.clipboardNew, .clipGet]⟩
    ∧ filesCreated (mainRun env).events = [] := by
  have h : mainRun env
      = ⟨.failure, ["ERROR: clipboard get error"], [.clipboardNew, .clipGet]⟩ := by
    simp [mainRun, run, save_image_from_clipboard, get_image_from_clipboard,
      hargs, hclip, hget]
  refine ⟨h, ?_⟩
  rw [h]
  rfl

/-- Claim C7, witness: the theorem at the concrete empty-clipboard save
environment. -/
theorem save_empty_clipboard_no_file_witness :
    mainRun { baseEnv with args := ["spit", "save"] }
      = ⟨.failure, ["ERROR: clipboard get error"], [.clipboardNew, .clipGet]⟩
    ∧ filesCreated (mainRun { baseEnv with args := ["spit", "save"] }).events
      = [] :=
  save_empty_clipboard_no_file { baseEnv with args := ["spit", "save"] }
    rfl rfl rfl

/-- Claim C8: a successful save writes exactly one file, as PNG, whose
name is the current Unix time in whole seconds followed by ".png", which
matches the pattern of one or more digits then ".png". -/
theorem save_writes_timestamp_png (env : Env) (d : ImageData) (t : Nat)
    (hargs : env.args[1]? = some "save")
    (hclip : env.clipboardNewOk = true)
    (hget : env.clipImage = some d)
    (hlen : u32cast d.width * u32cast d.height * 4 ≤ d.bytes.length)
    (htime : env.timeResult = some t)
    (hsave : env.saveOk = true) :
    mainRun env = ⟨.success, [],
      [.clipboardNew, .clipGet,
        .fileWrite (fileName t) true
          ⟨u32cast d.width, u32cast d.height, d.bytes⟩,
        .printOut ("Image from clipboard is saved as \"" ++ fileName t ++ "\"")]⟩
    ∧ matchesTimestampPng (fileName t) = true := by
  refine ⟨?_, matchesTimestampPng_fileName t⟩
  simp [mainRun, run, save_image_from_clipboard, get_image_from_clipboard,
    RgbaImage.from_raw, save_image_cwd_as_png, hargs, hclip, hget, hlen,
    htime, hsave]

/-- Claim C8, witness: the theorem at the concrete valid-clipboard save
environment with clock reading 0 seconds. -/
theorem save_writes_timestamp_png_witness :
    mainRun envSave = ⟨.success, [],
      [.clipboardNew, .clipGet,
        .fileWrite (fileName 0) true ⟨1, 1, [9, 9, 9, 9]⟩,
        .printOut ("Image from clipboard is saved as \"" ++ fileName 0 ++ "\"")]⟩
    ∧ matchesTimestampPng (fileName 0) = true :=
  save_writes_timestamp_png envSave ⟨1, 1, [9, 9, 9, 9]⟩ 0 rfl rfl rfl
    (by decide) rfl rfl

/-- Claim C9: the publish operation performs the blocking
wait-for-ownership-transfer clipboard write exactly when the target is
Linux, and the plain non-blocking write otherwise; the chosen variant is
recorded in the blocking flag of the clipboard-set event. -/
theorem publish_blocking_selection (env : Env) (img : RgbaImage)
    (rest : List Screen)
    (hscr : env.screensResult = some (⟨some img⟩ :: rest))
    (hset : env.setOk = true) :
    screenshot_into_clipboard env
      = (.ok (), [.screenAll, .screenCapture,
          .clipSet env.isLinux ⟨img.width, img.height, img.bytes⟩]) := by
  cases hl : env.isLinux <;>
    simp [screenshot_into_clipboard, capture_screenshot, hscr, hset, hl]

/-- Claim C9, witness: the theorem at the concrete Linux environment. -/
theorem publish_blocking_selection_witness :
    screenshot_into_clipboard baseEnv
      = (.ok (), [.screenAll, .screenCapture,
          .clipSet true ⟨1, 1, [0, 0, 0, 0]⟩]) :=
  publish_blocking_selection baseEnv testImg [] rfl rfl

/-- Claim C10: every successful save run prints the confirmation line
naming the created file to standard output. -/
theorem save_success_prints_message (env : Env) (d : ImageData) (t : Nat)
    (hargs : env.args[1]? = some "save")
    (hclip : env.clipboardNewOk = true)
    (hget : env.clipImage = some d)
    (hlen : u32cast d.width * u32cast d.height * 4 ≤ d.bytes.length)
    (htime : env.timeResult = some t)
    (hsave : env.saveOk = true) :
    (mainRun env).exit = .success
    ∧ Event.printOut ("Image from clipboard is saved as \"" ++ fileName t ++ "\"")
        ∈ (mainRun env).events := by
  have h : mainRun env = ⟨.success, [],
      [.clipboardNew, .clipGet,
        .fileWrite (fileName t) true
          ⟨u32cast d.width, u32cast d.height, d.bytes⟩,
        .printOut ("Image from clipboard is saved as \"" ++ fileName t ++ "\"")]⟩ := by
    simp [mainRun, run, save_image_from_clipboard, get_image_from_clipboard,
      RgbaImage.from_raw, save_image_cwd_as_png, hargs, hclip, hget, hlen,
      htime, hsave]
  rw [h]
  exact ⟨rfl, by simp⟩

/-- Claim C10, witness: the theorem at the concrete valid-clipboard save
environment. -/
theorem save_success_prints_message_witness :
    (mainRun envSave).exit = .success
    ∧ Event.printOut ("Image from clipboard is saved as \"" ++ fileName 0 ++ "\"")
        ∈ (mainRun envSave).events :=
  save_success_prints_message envSave ⟨1, 1, [9, 9, 9, 9]⟩ 0 rfl rfl rfl
    (by decide) rfl rfl

end Spit
